import Mathlib

/-
Verification of the inverse-depth visual factors in
gtsam_unstable/slam/InvDepthFactorVariant3.h.

The factor code itself (classes InvDepthFactorVariant3a and
InvDepthFactorVariant3b) is transcribed from the source header. The
geometric collaborators the header consumes (Pose3, Cal3_S2,
PinholeCamera, the numerical-differentiation utility, and the
tolerance-based comparison helpers) live elsewhere in the repository and
are modelled from the specification of the external interfaces. Scalars
are rational numbers; the trigonometric functions sin and cos are
arbitrary function parameters, since no verified property depends on a
trigonometric identity.
-/

namespace InvDepthVariant3

/-- A 2D image point (gtsam::Point2), coordinates as exact rationals. -/
structure Point2 where
  x : ℚ
  y : ℚ
  deriving DecidableEq

/-- A 3D point (gtsam::Point3). -/
structure Point3 where
  x : ℚ
  y : ℚ
  z : ℚ
  deriving DecidableEq

/-- Modelled from the spec: the pose type is an external collaborator; its
rotation part is a 3x3 coefficient matrix applied to local points. -/
structure Rot3 where
  r11 : ℚ
  r12 : ℚ
  r13 : ℚ
  r21 : ℚ
  r22 : ℚ
  r23 : ℚ
  r31 : ℚ
  r32 : ℚ
  r33 : ℚ
  deriving DecidableEq

/-- Modelled from the spec: apply the rotation matrix to a point. -/
def Rot3.rotate (R : Rot3) (p : Point3) : Point3 :=
  ⟨R.r11 * p.x + R.r12 * p.y + R.r13 * p.z,
   R.r21 * p.x + R.r22 * p.y + R.r23 * p.z,
   R.r31 * p.x + R.r32 * p.y + R.r33 * p.z⟩

/-- Modelled from the spec: apply the transposed rotation matrix (the inverse
rotation for an orthogonal matrix) to a point. -/
def Rot3.unrotate (R : Rot3) (p : Point3) : Point3 :=
  ⟨R.r11 * p.x + R.r21 * p.y + R.r31 * p.z,
   R.r12 * p.x + R.r22 * p.y + R.r32 * p.z,
   R.r13 * p.x + R.r23 * p.y + R.r33 * p.z⟩

/-- Modelled from the spec: a rigid-body pose, rotation plus translation,
representing a camera frame in world coordinates. -/
structure Pose3 where
  rot : Rot3
  trans : Point3
  deriving DecidableEq

/-- Modelled from the spec: transform a point from the pose local frame into
world coordinates (the local-to-world capability the core requires). -/
def Pose3.transform_from (pose : Pose3) (p : Point3) : Point3 :=
  let r := pose.rot.rotate p
  ⟨r.x + pose.trans.x, r.y + pose.trans.y, r.z + pose.trans.z⟩

/-- Modelled from the spec: transform a world point into the pose local
frame (used by the camera model to obtain the depth along the optical axis). -/
def Pose3.transform_to (pose : Pose3) (p : Point3) : Point3 :=
  pose.rot.unrotate ⟨p.x - pose.trans.x, p.y - pose.trans.y, p.z - pose.trans.z⟩

/-- Modelled from the spec: the fixed intrinsic camera parameters
(focal lengths fx, fy, skew s, principal point u0, v0) of gtsam::Cal3_S2,
in the constructor argument order Cal3_S2(fx, fy, s, u0, v0). -/
structure Cal3_S2 where
  fx : ℚ
  fy : ℚ
  s : ℚ
  u0 : ℚ
  v0 : ℚ
  deriving DecidableEq

/-- Modelled from the spec: map normalized image coordinates to pixel
coordinates using the intrinsic parameters. -/
def Cal3_S2.uncalibrate (K : Cal3_S2) (p : Point2) : Point2 :=
  ⟨K.fx * p.x + K.s * p.y + K.u0, K.fy * p.y + K.v0⟩

/-- Modelled from the spec: a pinhole camera, a pose together with the
calibration (gtsam::PinholeCamera of Cal3_S2). -/
structure PinholeCameraCal3S2 where
  pose : Pose3
  K : Cal3_S2

/-- Modelled from the spec: project a world point; the projection fails with
a cheirality fault exactly when the point has non-positive depth in the
camera frame (the point lies behind the camera). Failure is `none`, the
shallow embedding of the thrown CheiralityException. -/
def PinholeCameraCal3S2.project (c : PinholeCameraCal3S2) (pw : Point3) : Option Point2 :=
  let q := c.pose.transform_to pw
  if q.z ≤ 0 then none
  else some (c.K.uncalibrate ⟨q.x / q.z, q.y / q.z⟩)

/-- The coordinate transform of the factor (source lines 86-90 and 205-209,
identical in both variants): compute the landmark position in the reference
pose frame from the (theta, phi, rho) triple and convert it to world
coordinates. The sin and cos parameters stand for the C library functions. -/
def landmarkToWorld (sin cos : ℚ → ℚ) (pose : Pose3) (landmark : ℚ × ℚ × ℚ) : Point3 :=
  let theta := landmark.1
  let phi := landmark.2.1
  let rho := landmark.2.2
  let pose_P_landmark : Point3 :=
    ⟨cos phi * sin theta / rho, sin phi / rho, cos phi * cos theta / rho⟩
  pose.transform_from pose_P_landmark

/-- Modelled from the spec: tolerance comparison of 2D points
(Point2::equals), each coordinate within the absolute tolerance. -/
def Point2.equalsTol (p q : Point2) (tol : ℚ) : Bool :=
  decide (|p.x - q.x| ≤ tol) && decide (|p.y - q.y| ≤ tol)

/-- Modelled from the spec: tolerance comparison of calibrations
(Cal3_S2::equals), each intrinsic parameter within the absolute tolerance. -/
def Cal3_S2.equalsTol (K L : Cal3_S2) (tol : ℚ) : Bool :=
  decide (|K.fx - L.fx| ≤ tol) && decide (|K.fy - L.fy| ≤ tol) &&
  decide (|K.s - L.s| ≤ tol) && decide (|K.u0 - L.u0| ≤ tol) &&
  decide (|K.v0 - L.v0| ≤ tol)

/-- Modelled from the spec: the base-class comparison (structural comparison
of the bound variable identifiers). -/
def baseEquals (keysA keysB : List Nat) : Bool :=
  decide (keysA = keysB)

/-- The binary factor InvDepthFactorVariant3a: the bound variable
identifiers (held by the NoiseModelFactor2 base), the fixed 2D measurement
and the calibration. -/
structure InvDepthFactorVariant3a where
  keys : List Nat
  measured : Point2
  K : Cal3_S2
  deriving DecidableEq

/-- The default constructor InvDepthFactorVariant3a(): no keys bound, the
measurement default-constructed, the calibration set to the placeholder
intrinsics Cal3_S2(444, 555, 666, 777, 888). -/
def InvDepthFactorVariant3a.mkDefault : InvDepthFactorVariant3a :=
  ⟨[], ⟨0, 0⟩, ⟨444, 555, 666, 777, 888⟩⟩

/-- The main constructor of InvDepthFactorVariant3a(poseKey, landmarkKey,
measured, K, model). -/
def InvDepthFactorVariant3a.mkFactor (poseKey landmarkKey : Nat)
    (measured : Point2) (K : Cal3_S2) : InvDepthFactorVariant3a :=
  ⟨[poseKey, landmarkKey], measured, K⟩

/-- InvDepthFactorVariant3a::equals (source lines 76-82): base comparison,
then the measurement and the calibration within the tolerance. -/
def InvDepthFactorVariant3a.equals (a b : InvDepthFactorVariant3a) (tol : ℚ) : Bool :=
  baseEquals a.keys b.keys && a.measured.equalsTol b.measured tol && a.K.equalsTol b.K tol

/-- InvDepthFactorVariant3a::inverseDepthError (source lines 84-103):
compute the landmark in world coordinates, project it through the camera
built from the pose and the stored calibration, and subtract the
measurement; when projection fails with a cheirality fault, return the
sentinel vector ones(2) * 2 * fx instead. -/
def InvDepthFactorVariant3a.inverseDepthError (f : InvDepthFactorVariant3a)
    (sin cos : ℚ → ℚ) (pose : Pose3) (landmark : ℚ × ℚ × ℚ) : List ℚ :=
  let world_P_landmark := landmarkToWorld sin cos pose landmark
  let camera : PinholeCameraCal3S2 := ⟨pose, f.K⟩
  match camera.project world_P_landmark with
  | some projection => [projection.x - f.measured.x, projection.y - f.measured.y]
  | none => [2 * f.K.fx, 2 * f.K.fx]

/-- The method is const: a call returns the residual together with the
factor state after the call, which the body never writes to. -/
def InvDepthFactorVariant3a.inverseDepthErrorCall (f : InvDepthFactorVariant3a)
    (sin cos : ℚ → ℚ) (pose : Pose3) (landmark : ℚ × ℚ × ℚ) :
    List ℚ × InvDepthFactorVariant3a :=
  (f.inverseDepthError sin cos pose landmark, f)

/-- The j-th tangent basis vector scaled by c, used by the differentiation
utility to perturb one local degree of freedom at a time. -/
def basis6 (j : Fin 6) (c : ℚ) : Fin 6 → ℚ :=
  fun i => if i = j then c else 0

/-- Modelled from the spec: the numerical-differentiation utility
(numericalDerivative11 at a Pose3 argument). The pose is perturbed through
its manifold retraction along each of its 6 local degrees of freedom and
the residuals are centrally differenced with step delta. The retraction is
a parameter, as the pose manifold structure is external to the core. The
result is the Jacobian given by its 6 columns. -/
def numericalDerivative11Pose3 (retract : Pose3 → (Fin 6 → ℚ) → Pose3) (delta : ℚ)
    (f : Pose3 → List ℚ) (x : Pose3) : Fin 6 → List ℚ :=
  fun j =>
    List.zipWith (fun a b => (a - b) / (2 * delta))
      (f (retract x (basis6 j delta))) (f (retract x (basis6 j (-delta))))

/-- Perturb one raw coordinate of the landmark triple by c. -/
def perturb3 (x : ℚ × ℚ × ℚ) (j : Fin 3) (c : ℚ) : ℚ × ℚ × ℚ :=
  if j = 0 then (x.1 + c, x.2.1, x.2.2)
  else if j = 1 then (x.1, x.2.1 + c, x.2.2)
  else (x.1, x.2.1, x.2.2 + c)

/-- Modelled from the spec: the numerical-differentiation utility
(numericalDerivative11 at a LieVector argument). The landmark triple is
perturbed by raw coordinate addition in (theta, phi, rho) and the residuals
are centrally differenced with step delta. The result is the Jacobian given
by its 3 columns. -/
def numericalDerivative11Vec3 (delta : ℚ)
    (f : ℚ × ℚ × ℚ → List ℚ) (x : ℚ × ℚ × ℚ) : Fin 3 → List ℚ :=
  fun j =>
    List.zipWith (fun a b => (a - b) / (2 * delta))
      (f (perturb3 x j delta)) (f (perturb3 x j (-delta)))

/-- InvDepthFactorVariant3a::evaluateError (source lines 106-118): fill the
supplied Jacobian slots by numerically differentiating inverseDepthError in
the corresponding variable, the other variable held fixed at the operating
point, and return the residual. A Boolean per slot models whether the
optional output matrix was supplied; an unsupplied slot performs no
differentiation and stays `none`. -/
def InvDepthFactorVariant3a.evaluateError (f : InvDepthFactorVariant3a)
    (sin cos : ℚ → ℚ) (retract : Pose3 → (Fin 6 → ℚ) → Pose3) (delta : ℚ)
    (pose : Pose3) (landmark : ℚ × ℚ × ℚ) (H1 H2 : Bool) :
    List ℚ × Option (Fin 6 → List ℚ) × Option (Fin 3 → List ℚ) :=
  let J1 := if H1 then
      some (numericalDerivative11Pose3 retract delta
        (fun p => f.inverseDepthError sin cos p landmark) pose)
    else none
  let J2 := if H2 then
      some (numericalDerivative11Vec3 delta
        (fun l => f.inverseDepthError sin cos pose l) landmark)
    else none
  (f.inverseDepthError sin cos pose landmark, J1, J2)

/-- The ternary factor InvDepthFactorVariant3b: the bound variable
identifiers (held by the NoiseModelFactor3 base), the fixed 2D measurement
and the calibration. -/
structure InvDepthFactorVariant3b where
  keys : List Nat
  measured : Point2
  K : Cal3_S2
  deriving DecidableEq

/-- The default constructor InvDepthFactorVariant3b(): no keys bound, the
measurement default-constructed, the calibration set to the placeholder
intrinsics Cal3_S2(444, 555, 666, 777, 888). -/
def InvDepthFactorVariant3b.mkDefault : InvDepthFactorVariant3b :=
  ⟨[], ⟨0, 0⟩, ⟨444, 555, 666, 777, 888⟩⟩

/-- The main constructor of InvDepthFactorVariant3b(poseKey1, poseKey2,
landmarkKey, measured, K, model). -/
def InvDepthFactorVariant3b.mkFactor (poseKey1 poseKey2 landmarkKey : Nat)
    (measured : Point2) (K : Cal3_S2) : InvDepthFactorVariant3b :=
  ⟨[poseKey1, poseKey2, landmarkKey], measured, K⟩

/-- InvDepthFactorVariant3b::equals (source lines 195-201): base comparison,
then the measurement and the calibration within the tolerance. -/
def InvDepthFactorVariant3b.equals (a b : InvDepthFactorVariant3b) (tol : ℚ) : Bool :=
  baseEquals a.keys b.keys && a.measured.equalsTol b.measured tol && a.K.equalsTol b.K tol

/-- InvDepthFactorVariant3b::inverseDepthError (source lines 203-222):
compute the landmark in world coordinates from the reference pose pose1,
project it through the camera built from the observing pose pose2 and the
stored calibration, and subtract the measurement; when projection fails
with a cheirality fault, return the sentinel vector ones(2) * 2 * fx. -/
def InvDepthFactorVariant3b.inverseDepthError (f : InvDepthFactorVariant3b)
    (sin cos : ℚ → ℚ) (pose1 pose2 : Pose3) (landmark : ℚ × ℚ × ℚ) : List ℚ :=
  let world_P_landmark := landmarkToWorld sin cos pose1 landmark
  let camera : PinholeCameraCal3S2 := ⟨pose2, f.K⟩
  match camera.project world_P_landmark with
  | some projection => [projection.x - f.measured.x, projection.y - f.measured.y]
  | none => [2 * f.K.fx, 2 * f.K.fx]

/-- The method is const: a call returns the residual together with the
factor state after the call, which the body never writes to. -/
def InvDepthFactorVariant3b.inverseDepthErrorCall (f : InvDepthFactorVariant3b)
    (sin cos : ℚ → ℚ) (pose1 pose2 : Pose3) (landmark : ℚ × ℚ × ℚ) :
    List ℚ × InvDepthFactorVariant3b :=
  (f.inverseDepthError sin cos pose1 pose2 landmark, f)

/-- InvDepthFactorVariant3b::evaluateError (source lines 225-241): fill the
supplied Jacobian slots by numerically differentiating inverseDepthError in
the corresponding variable, the other variables held fixed at the operating
point, and return the residual. -/
def InvDepthFactorVariant3b.evaluateError (f : InvDepthFactorVariant3b)
    (sin cos : ℚ → ℚ) (retract : Pose3 → (Fin 6 → ℚ) → Pose3) (delta : ℚ)
    (pose1 pose2 : Pose3) (landmark : ℚ × ℚ × ℚ) (H1 H2 H3 : Bool) :
    List ℚ × Option (Fin 6 → List ℚ) × Option (Fin 6 → List ℚ) × Option (Fin 3 → List ℚ) :=
  let J1 := if H1 then
      some (numericalDerivative11Pose3 retract delta
        (fun p => f.inverseDepthError sin cos p pose2 landmark) pose1)
    else none
  let J2 := if H2 then
      some (numericalDerivative11Pose3 retract delta
        (fun p => f.inverseDepthError sin cos pose1 p landmark) pose2)
    else none
  let J3 := if H3 then
      some (numericalDerivative11Vec3 delta
        (fun l => f.inverseDepthError sin cos pose1 pose2 l) landmark)
    else none
  (f.inverseDepthError sin cos pose1 pose2 landmark, J1, J2, J3)

/-- The identity rotation. -/
def idRot : Rot3 := ⟨1, 0, 0, 0, 1, 0, 0, 0, 1⟩

/-- The identity pose. -/
def idPose : Pose3 := ⟨idRot, ⟨0, 0, 0⟩⟩

/-- A concrete test calibration with fx = 100. -/
def testK : Cal3_S2 := ⟨100, 100, 0, 50, 50⟩

/-- A concrete binary factor used by the witnesses. -/
def testFa : InvDepthFactorVariant3a := ⟨[1, 2], ⟨10, 20⟩, testK⟩

/-- A concrete ternary factor used by the witnesses. -/
def testFb : InvDepthFactorVariant3b := ⟨[1, 2, 3], ⟨10, 20⟩, testK⟩

/-- A concrete stand-in for sin in the witnesses. -/
def sinZero : ℚ → ℚ := fun _ => 0

/-- A concrete stand-in for cos in the witnesses. -/
def cosOne : ℚ → ℚ := fun _ => 1

/-- A concrete binary factor sharing measurement and calibration with testFa
but bound to different variable identifiers. -/
def testGa : InvDepthFactorVariant3a := ⟨[7, 8], ⟨10, 20⟩, testK⟩

/-- A concrete ternary factor sharing measurement and calibration with testFb
but bound to different variable identifiers. -/
def testGb : InvDepthFactorVariant3b := ⟨[7, 8, 9], ⟨10, 20⟩, testK⟩

/-- C2: for every landmark triple (theta, phi, rho) with rho nonzero and
every reference pose, the coordinate transform computes the local-frame
point exactly as (cos(phi)*sin(theta)/rho, sin(phi)/rho,
cos(phi)*cos(theta)/rho) and then applies the local-to-world transform of
the reference pose. -/
theorem coordinate_transform_formula (sin cos : ℚ → ℚ) (pose : Pose3)
    (theta phi rho : ℚ) (h : rho ≠ 0) :
    landmarkToWorld sin cos pose (theta, phi, rho) =
      pose.transform_from
        ⟨cos phi * sin theta / rho, sin phi / rho, cos phi * cos theta / rho⟩ :=
  rfl

/-- Witness for C2 at the concrete landmark (0, 0, 1) and the identity pose. -/
theorem coordinate_transform_formula_witness :
    (1 : ℚ) ≠ 0 ∧
    landmarkToWorld sinZero cosOne idPose (0, 0, 1) =
      idPose.transform_from
        ⟨cosOne 0 * sinZero 0 / 1, sinZero 0 / 1, cosOne 0 * cosOne 0 / 1⟩ :=
  ⟨one_ne_zero, coordinate_transform_formula sinZero cosOne idPose 0 0 1 one_ne_zero⟩

/-- C1: in both variants, whenever the projection of the world point fails
with a cheirality fault, inverseDepthError returns the fixed residual
(2 * fx, 2 * fx) built from the x focal length of the stored calibration,
propagating no error to the caller. -/
theorem cheirality_fault_sentinel (fa : InvDepthFactorVariant3a)
    (fb : InvDepthFactorVariant3b) (sin cos : ℚ → ℚ) (pose pose1 pose2 : Pose3)
    (lma lmb : ℚ × ℚ × ℚ)
    (ha : PinholeCameraCal3S2.project ⟨pose, fa.K⟩ (landmarkToWorld sin cos pose lma) = none)
    (hb : PinholeCameraCal3S2.project ⟨pose2, fb.K⟩ (landmarkToWorld sin cos pose1 lmb) = none) :
    fa.inverseDepthError sin cos pose lma = [2 * fa.K.fx, 2 * fa.K.fx] ∧
    fb.inverseDepthError sin cos pose1 pose2 lmb = [2 * fb.K.fx, 2 * fb.K.fx] := by
  constructor
  · show (match PinholeCameraCal3S2.project ⟨pose, fa.K⟩ (landmarkToWorld sin cos pose lma) with
      | some projection => [projection.x - fa.measured.x, projection.y - fa.measured.y]
      | none => [2 * fa.K.fx, 2 * fa.K.fx]) = [2 * fa.K.fx, 2 * fa.K.fx]
    rw [ha]
  · show (match PinholeCameraCal3S2.project ⟨pose2, fb.K⟩ (landmarkToWorld sin cos pose1 lmb) with
      | some projection => [projection.x - fb.measured.x, projection.y - fb.measured.y]
      | none => [2 * fb.K.fx, 2 * fb.K.fx]) = [2 * fb.K.fx, 2 * fb.K.fx]
    rw [hb]

/-- Witness for C1: the landmark (0, 0, -1) seen from the identity pose lies
at depth -1, behind the camera, and both variants return the sentinel. -/
theorem cheirality_fault_sentinel_witness :
    PinholeCameraCal3S2.project ⟨idPose, testFa.K⟩
      (landmarkToWorld sinZero cosOne idPose (0, 0, -1)) = none ∧
    PinholeCameraCal3S2.project ⟨idPose, testFb.K⟩
      (landmarkToWorld sinZero cosOne idPose (0, 0, -1)) = none ∧
    (testFa.inverseDepthError sinZero cosOne idPose (0, 0, -1) =
        [2 * testFa.K.fx, 2 * testFa.K.fx] ∧
     testFb.inverseDepthError sinZero cosOne idPose idPose (0, 0, -1) =
        [2 * testFb.K.fx, 2 * testFb.K.fx]) := by
  have ha : PinholeCameraCal3S2.project ⟨idPose, testFa.K⟩
      (landmarkToWorld sinZero cosOne idPose (0, 0, -1)) = none := by
    norm_num [landmarkToWorld, PinholeCameraCal3S2.project, Pose3.transform_from,
      Pose3.transform_to, Rot3.rotate, Rot3.unrotate, idPose, idRot, testFa, testK,
      sinZero, cosOne]
  have hb : PinholeCameraCal3S2.project ⟨idPose, testFb.K⟩
      (landmarkToWorld sinZero cosOne idPose (0, 0, -1)) = none := by
    norm_num [landmarkToWorld, PinholeCameraCal3S2.project, Pose3.transform_from,
      Pose3.transform_to, Rot3.rotate, Rot3.unrotate, idPose, idRot, testFb, testK,
      sinZero, cosOne]
  exact ⟨ha, hb, cheirality_fault_sentinel testFa testFb sinZero cosOne
    idPose idPose idPose (0, 0, -1) (0, 0, -1) ha hb⟩

/-- C3: in the two-pose variant, whenever projection succeeds, the residual
is the projection through the camera built from the observing pose pose2
and the stored calibration of the world point built from the reference pose
pose1, minus the stored measurement. -/
theorem two_pose_normal_residual (f : InvDepthFactorVariant3b) (sin cos : ℚ → ℚ)
    (pose1 pose2 : Pose3) (lm : ℚ × ℚ × ℚ) (projection : Point2)
    (h : PinholeCameraCal3S2.project ⟨pose2, f.K⟩ (landmarkToWorld sin cos pose1 lm) =
      some projection) :
    f.inverseDepthError sin cos pose1 pose2 lm =
      [projection.x - f.measured.x, projection.y - f.measured.y] := by
  show (match PinholeCameraCal3S2.project ⟨pose2, f.K⟩ (landmarkToWorld sin cos pose1 lm) with
    | some projection => [projection.x - f.measured.x, projection.y - f.measured.y]
    | none => [2 * f.K.fx, 2 * f.K.fx]) =
      [projection.x - f.measured.x, projection.y - f.measured.y]
  rw [h]

/-- Witness for C3 at the landmark (0, 0, 1) in front of two coincident
identity poses, projecting to the principal point (50, 50). -/
theorem two_pose_normal_residual_witness :
    PinholeCameraCal3S2.project ⟨idPose, testFb.K⟩
      (landmarkToWorld sinZero cosOne idPose (0, 0, 1)) = some ⟨50, 50⟩ ∧
    testFb.inverseDepthError sinZero cosOne idPose idPose (0, 0, 1) =
      [(⟨50, 50⟩ : Point2).x - testFb.measured.x,
       (⟨50, 50⟩ : Point2).y - testFb.measured.y] := by
  have h : PinholeCameraCal3S2.project ⟨idPose, testFb.K⟩
      (landmarkToWorld sinZero cosOne idPose (0, 0, 1)) = some ⟨50, 50⟩ := by
    norm_num [landmarkToWorld, PinholeCameraCal3S2.project, Pose3.transform_from,
      Pose3.transform_to, Rot3.rotate, Rot3.unrotate, Cal3_S2.uncalibrate,
      idPose, idRot, testFb, testK, sinZero, cosOne]
  exact ⟨h, two_pose_normal_residual testFb sinZero cosOne idPose idPose
    (0, 0, 1) ⟨50, 50⟩ h⟩

/-- C5: in both variants and on every input, the residual returned by
inverseDepthError has dimension exactly 2; the normal branch and the
cheirality branch both return 2D vectors, so the trailing 1-dimensional
return of the source is unreachable. -/
theorem residual_dimension_two (fa : InvDepthFactorVariant3a)
    (fb : InvDepthFactorVariant3b) (sin cos : ℚ → ℚ) (pose pose1 pose2 : Pose3)
    (lma lmb : ℚ × ℚ × ℚ) :
    (fa.inverseDepthError sin cos pose lma).length = 2 ∧
    (fb.inverseDepthError sin cos pose1 pose2 lmb).length = 2 := by
  constructor
  · show (match PinholeCameraCal3S2.project ⟨pose, fa.K⟩ (landmarkToWorld sin cos pose lma) with
      | some projection => [projection.x - fa.measured.x, projection.y - fa.measured.y]
      | none => [2 * fa.K.fx, 2 * fa.K.fx]).length = 2
    cases PinholeCameraCal3S2.project ⟨pose, fa.K⟩ (landmarkToWorld sin cos pose lma) <;> rfl
  · show (match PinholeCameraCal3S2.project ⟨pose2, fb.K⟩ (landmarkToWorld sin cos pose1 lmb) with
      | some projection => [projection.x - fb.measured.x, projection.y - fb.measured.y]
      | none => [2 * fb.K.fx, 2 * fb.K.fx]).length = 2
    cases PinholeCameraCal3S2.project ⟨pose2, fb.K⟩ (landmarkToWorld sin cos pose1 lmb) <;> rfl

/-- C6: for every pose, landmark triple, measurement and calibration, the
one-pose variant residual equals the two-pose variant residual with both
the reference pose and the observing pose set to the same pose, whatever
variable identifiers either factor binds. -/
theorem variants_share_algorithm (keysA keysB : List Nat) (m : Point2)
    (K : Cal3_S2) (sin cos : ℚ → ℚ) (pose : Pose3) (lm : ℚ × ℚ × ℚ) :
    InvDepthFactorVariant3a.inverseDepthError ⟨keysA, m, K⟩ sin cos pose lm =
    InvDepthFactorVariant3b.inverseDepthError ⟨keysB, m, K⟩ sin cos pose pose lm :=
  rfl

/-- C7: evaluation is deterministic and stateless. Two factors of either
variant agreeing on the stored measurement and calibration produce the same
residual at the same inputs (the residual is a pure function of the
supplied values and those two immutable fields), and the factor state after
a call is the factor state before it. -/
theorem evaluation_pure (fa ga : InvDepthFactorVariant3a)
    (fb gb : InvDepthFactorVariant3b) (sin cos : ℚ → ℚ) (pose pose1 pose2 : Pose3)
    (lma lmb : ℚ × ℚ × ℚ)
    (h1 : fa.measured = ga.measured) (h2 : fa.K = ga.K)
    (h3 : fb.measured = gb.measured) (h4 : fb.K = gb.K) :
    (fa.inverseDepthError sin cos pose lma = ga.inverseDepthError sin cos pose lma ∧
     (fa.inverseDepthErrorCall sin cos pose lma).2 = fa) ∧
    (fb.inverseDepthError sin cos pose1 pose2 lmb =
        gb.inverseDepthError sin cos pose1 pose2 lmb ∧
     (fb.inverseDepthErrorCall sin cos pose1 pose2 lmb).2 = fb) := by
  obtain ⟨ka, ma, Ka⟩ := fa
  obtain ⟨kg, mg, Kg⟩ := ga
  obtain ⟨kb, mb, Kb⟩ := fb
  obtain ⟨kh, mh, Kh⟩ := gb
  have e1 : ma = mg := h1
  have e2 : Ka = Kg := h2
  have e3 : mb = mh := h3
  have e4 : Kb = Kh := h4
  subst e1
  subst e2
  subst e3
  subst e4
  exact ⟨⟨rfl, rfl⟩, ⟨rfl, rfl⟩⟩

/-- Witness for C7: factors differing only in their bound identifiers give
the same residual at the landmark (0, 0, 1), and calls leave them unchanged. -/
theorem evaluation_pure_witness :
    (testFa.measured = testGa.measured ∧ testFa.K = testGa.K ∧
     testFb.measured = testGb.measured ∧ testFb.K = testGb.K) ∧
    ((testFa.inverseDepthError sinZero cosOne idPose (0, 0, 1) =
        testGa.inverseDepthError sinZero cosOne idPose (0, 0, 1) ∧
      (testFa.inverseDepthErrorCall sinZero cosOne idPose (0, 0, 1)).2 = testFa) ∧
     (testFb.inverseDepthError sinZero cosOne idPose idPose (0, 0, 1) =
        testGb.inverseDepthError sinZero cosOne idPose idPose (0, 0, 1) ∧
      (testFb.inverseDepthErrorCall sinZero cosOne idPose idPose (0, 0, 1)).2 = testFb)) :=
  ⟨⟨rfl, rfl, rfl, rfl⟩,
   evaluation_pure testFa testGa testFb testGb sinZero cosOne idPose idPose idPose
     (0, 0, 1) (0, 0, 1) rfl rfl rfl rfl⟩

/-- C8: in both variants, equals returns true exactly when the two factors
bind equal variable identifiers, their measurements agree coordinatewise
within the tolerance, and their calibrations agree parameterwise within the
tolerance; a difference beyond the tolerance in any one field makes it
false. -/
theorem equals_iff_fields (a b : InvDepthFactorVariant3a)
    (c d : InvDepthFactorVariant3b) (tol : ℚ) :
    (a.equals b tol = true ↔
      (a.keys = b.keys ∧
       (|a.measured.x - b.measured.x| ≤ tol ∧ |a.measured.y - b.measured.y| ≤ tol) ∧
       (|a.K.fx - b.K.fx| ≤ tol ∧ |a.K.fy - b.K.fy| ≤ tol ∧ |a.K.s - b.K.s| ≤ tol ∧
        |a.K.u0 - b.K.u0| ≤ tol ∧ |a.K.v0 - b.K.v0| ≤ tol))) ∧
    (c.equals d tol = true ↔
      (c.keys = d.keys ∧
       (|c.measured.x - d.measured.x| ≤ tol ∧ |c.measured.y - d.measured.y| ≤ tol) ∧
       (|c.K.fx - d.K.fx| ≤ tol ∧ |c.K.fy - d.K.fy| ≤ tol ∧ |c.K.s - d.K.s| ≤ tol ∧
        |c.K.u0 - d.K.u0| ≤ tol ∧ |c.K.v0 - d.K.v0| ≤ tol))) := by
  constructor <;>
  · simp [InvDepthFactorVariant3a.equals, InvDepthFactorVariant3b.equals, baseEquals,
      Point2.equalsTol, Cal3_S2.equalsTol, Bool.and_eq_true, decide_eq_true_eq,
      and_assoc]

/-- C9: default construction is not rejected and stores the placeholder
calibration Cal3_S2(444, 555, 666, 777, 888) in both variants. -/
theorem default_constructor_placeholder_calibration :
    InvDepthFactorVariant3a.mkDefault.K = (⟨444, 555, 666, 777, 888⟩ : Cal3_S2) ∧
    InvDepthFactorVariant3b.mkDefault.K = (⟨444, 555, 666, 777, 888⟩ : Cal3_S2) :=
  ⟨rfl, rfl⟩

/-- C10: in both variants, the residual component returned by evaluateError
equals inverseDepthError at the same inputs whatever combination of
Jacobian slots is supplied. -/
theorem residual_independent_of_jacobian_flags (fa : InvDepthFactorVariant3a)
    (fb : InvDepthFactorVariant3b) (sin cos : ℚ → ℚ)
    (retract : Pose3 → (Fin 6 → ℚ) → Pose3) (delta : ℚ) (pose pose1 pose2 : Pose3)
    (lma lmb : ℚ × ℚ × ℚ) (H1 H2 H1b H2b H3b : Bool) :
    (fa.evaluateError sin cos retract delta pose lma H1 H2).1 =
      fa.inverseDepthError sin cos pose lma ∧
    (fb.evaluateError sin cos retract delta pose1 pose2 lmb H1b H2b H3b).1 =
      fb.inverseDepthError sin cos pose1 pose2 lmb :=
  ⟨rfl, rfl⟩

/-- C4: in both variants, a Jacobian slot that is not supplied stays empty
with no differentiation performed, and a supplied slot holds exactly the
numerical derivative of the single-variable residual function obtained by
fixing every other variable at the operating point. -/
theorem jacobian_slots_numerical (fa : InvDepthFactorVariant3a)
    (fb : InvDepthFactorVariant3b) (sin cos : ℚ → ℚ)
    (retract : Pose3 → (Fin 6 → ℚ) → Pose3) (delta : ℚ) (pose pose1 pose2 : Pose3)
    (lma lmb : ℚ × ℚ × ℚ) (H1 H2 H1b H2b H3b : Bool) :
    (fa.evaluateError sin cos retract delta pose lma H1 H2).2.1 =
      (if H1 then
        some (numericalDerivative11Pose3 retract delta
          (fun p => fa.inverseDepthError sin cos p lma) pose)
      else none) ∧
    (fa.evaluateError sin cos retract delta pose lma H1 H2).2.2 =
      (if H2 then
        some (numericalDerivative11Vec3 delta
          (fun l => fa.inverseDepthError sin cos pose l) lma)
      else none) ∧
    (fb.evaluateError sin cos retract delta pose1 pose2 lmb H1b H2b H3b).2.1 =
      (if H1b then
        some (numericalDerivative11Pose3 retract delta
          (fun p => fb.inverseDepthError sin cos p pose2 lmb) pose1)
      else none) ∧
    (fb.evaluateError sin cos retract delta pose1 pose2 lmb H1b H2b H3b).2.2.1 =
      (if H2b then
        some (numericalDerivative11Pose3 retract delta
          (fun p => fb.inverseDepthError sin cos pose1 p lmb) pose2)
      else none) ∧
    (fb.evaluateError sin cos retract delta pose1 pose2 lmb H1b H2b H3b).2.2.2 =
      (if H3b then
        some (numericalDerivative11Vec3 delta
          (fun l => fb.inverseDepthError sin cos pose1 pose2 l) lmb)
      else none) :=
  ⟨rfl, rfl, rfl, rfl, rfl⟩

end InvDepthVariant3
